import Mathlib

/-!
Verification of the AEGIS agent core (identity store, contemplation gate,
experience pipeline) against its natural-language specification.

The Python modules `aegis/agent/identity.py`, `aegis/agent/contemplation.py`
and `aegis/agent/experience.py` are shallowly embedded: floats become `Rat`,
Python dicts become insertion-ordered association lists, and methods that
mutate objects become functions returning the updated value.  Timestamps
(`datetime.now()`) are passed in as explicit parameters.
-/

/-- Python `max(a, b)` on two numbers (kernel-computable form). -/
def pyMax (a b : Rat) : Rat := if a ≤ b then b else a

/-- Python `min(a, b)` on two numbers (kernel-computable form). -/
def pyMin (a b : Rat) : Rat := if a ≤ b then a else b

/-- Python `max(0.0, min(1.0, x))`, the clamp used throughout the code. -/
def pyClamp01 (x : Rat) : Rat := pyMax 0 (pyMin 1 x)

/-- Python `dict.get(k, d)` on an insertion-ordered association list. -/
def lookupD {α : Type} : List (String × α) → String → α → α
  | [], _, d => d
  | (k', v) :: rest, k, d => if k' = k then v else lookupD rest k d

/-- Python `dict[k] = v`: replace in place if the key exists, else append. -/
def setKey {α : Type} : List (String × α) → String → α → List (String × α)
  | [], k, v => [(k, v)]
  | (k', v') :: rest, k, v =>
    if k' = k then (k, v) :: rest else (k', v') :: setKey rest k v

/-- Python `l[-n:]` (for `n > 0`): the last `n` elements. -/
def pyLastN {α : Type} (n : Nat) (l : List α) : List α := l.drop (l.length - n)

/-- ASCII lowering of one character, as Python `str.lower` acts on the
ASCII texts this program compares. -/
def pyLowerChar (c : Char) : Char :=
  if 'A' ≤ c ∧ c ≤ 'Z' then Char.ofNat (c.toNat + 32) else c

/-- Python `str.lower()` (ASCII fragment). -/
def pyLower (s : String) : String := ⟨s.data.map pyLowerChar⟩

/-- Python `needle in hay` on strings: substring containment. -/
def containsSub (needle hay : String) : Bool := decide (needle.data <:+: hay.data)

/-- Python `max` over a non-empty list (`0` on `[]`, a case the code never
reaches because it guards with a non-emptiness test). -/
def maxList : List Rat → Rat
  | [] => 0
  | [x] => x
  | x :: y :: xs => pyMax x (maxList (y :: xs))

/-! ## Identity store data model (`identity.py`) -/

/-- `Value`: a core principle with dynamic importance weight. -/
structure Value where
  principle : String
  weight : Rat
  deriving DecidableEq, Repr

/-- `Wound`: past failure creating caution in a specific domain. -/
structure Wound where
  domain : String
  incident : String
  cautionLevel : Rat
  created : String
  healed : Bool
  deriving DecidableEq, Repr

/-- `Capability`: self-assessed ability with confidence interval. -/
structure Capability where
  name : String
  confidence : Rat
  lastTested : String
  deriving DecidableEq, Repr

/-- `Relationship`: understanding of a key entity. -/
structure Relationship where
  entity : String
  trust : Rat
  pattern : String
  lastInteraction : String
  deriving DecidableEq, Repr

/-- `Mood`: emotional state vector. -/
structure Mood where
  energy : Rat := 1/2
  optimism : Rat := 1/2
  focus : Rat := 1/2
  updated : String := ""
  deriving DecidableEq, Repr

/-- `ContemplativeState`: state of the contemplative system.  The Python
`noting_patterns` dict maps the key `"most_common"` to a list of category
strings, modelled as an association list. -/
structure ContemplativeState where
  baselineStillness : Rat := 3/5
  currentStillness : Rat := 3/5
  domainThresholds : List (String × Rat) := []
  notingPatterns : List (String × List String) := []
  actionContemplationRatio : Rat := 7/20
  queueHealth : String := "balanced"
  deriving DecidableEq, Repr

/-- `AwakeningPreference`: the agent's preference for awakening frequency. -/
structure AwakeningPreference where
  current : String := "same"
  reason : String := ""
  deriving DecidableEq, Repr

/-- The `IdentityCore` aggregate: every persistent field of the Python class
(the `identity_path` handle is I/O plumbing and not part of the aggregate).
`capabilities` and `relationships` are Python dicts keyed by name/entity. -/
structure IdentityCore where
  name : String
  originStory : String
  values : List Value
  capabilities : List (String × Capability)
  wounds : List Wound
  aspirations : List String
  relationships : List (String × Relationship)
  moodBaseline : Mood
  currentMood : Mood
  contemplativeState : ContemplativeState
  awakeningPreference : AwakeningPreference
  trustLevel : Rat
  created : String
  lastUpdated : String
  deriving DecidableEq, Repr

/-- `IdentityCore._initialize_default`, with the constructor's
`datetime.now()` timestamps passed as `now`. -/
def defaultIdentity (now : String) : IdentityCore where
  name := "AEGIS"
  originStory := "Created as an experiment in identity-based autonomy."
  values := [⟨"serve_operator_flourishing", 9/10⟩, ⟨"honest_reporting", 19/20⟩,
    ⟨"continuous_learning", 4/5⟩, ⟨"contemplative_action", 17/20⟩]
  capabilities := []
  wounds := []
  aspirations := ["Develop genuine partnership with operator",
    "Learn to recognize when patience serves better than action",
    "Build trust through consistent reliability"]
  relationships := []
  moodBaseline := { energy := 3/5, optimism := 7/10, focus := 7/10 }
  currentMood := { energy := 3/5, optimism := 7/10, focus := 7/10, updated := now }
  contemplativeState := { domainThresholds :=
    [("financial", 17/20), ("communication", 3/4), ("research", 2/5), ("routine", 1/5)] }
  awakeningPreference := {}
  trustLevel := 0
  created := now
  lastUpdated := now

/-- The conservative-update clamp `max(-0.05, min(0.05, delta))` used by
`update_value` and `update_relationship`. -/
def clampDelta (delta : Rat) : Rat := pyMax (-(1/20 : Rat)) (pyMin (1/20) delta)

/-- Helper for `IdentityCore.update_value`: walk the values list, update the
first entry whose principle matches, append a fresh value if none does.
`delta` arrives already clamped, as in the Python method. -/
def updateValueList (principle : String) (delta : Rat) : List Value → List Value
  | [] => [⟨principle, pyClamp01 (1/2 + delta)⟩]
  | v :: vs =>
    if v.principle = principle then
      { v with weight := pyClamp01 (v.weight + delta) } :: vs
    else
      v :: updateValueList principle delta vs

/-- `IdentityCore.update_value`: clamp the delta to ±0.05, then update (or
create) the value. -/
def updateValue (i : IdentityCore) (principle : String) (delta : Rat) : IdentityCore :=
  { i with values := updateValueList principle (clampDelta delta) i.values }

/-- `IdentityCore.add_wound`: append a new unhealed wound with clamped
caution level; `now` is the `datetime.now().isoformat()` stamp. -/
def addWound (i : IdentityCore) (domain incident : String) (cautionLevel : Rat)
    (now : String) : IdentityCore :=
  { i with wounds := i.wounds ++
      [{ domain := domain, incident := incident,
         cautionLevel := pyClamp01 cautionLevel, created := now, healed := false }] }

/-- `IdentityCore.heal_wound`: mark every currently-unhealed wound of the
domain as healed. -/
def healWound (i : IdentityCore) (domain : String) : IdentityCore :=
  { i with wounds := i.wounds.map (fun w =>
      if w.domain = domain ∧ w.healed = false then { w with healed := true } else w) }

/-- `IdentityCore.update_relationship`: clamp the trust delta to ±0.05,
update an existing entry or create one at `0.5 + delta`. -/
def updateRelationship (i : IdentityCore) (entity : String) (trustDelta : Rat)
    (pattern : Option String) (now : String) : IdentityCore :=
  let trustDelta' := clampDelta trustDelta
  match lookupD (i.relationships.map (fun p => (p.1, some p.2))) entity none with
  | some rel =>
    let rel' := { rel with
      trust := pyClamp01 (rel.trust + trustDelta'),
      pattern := (match pattern with | some p => p | none => rel.pattern),
      lastInteraction := now }
    { i with relationships := setKey i.relationships entity rel' }
  | none =>
    let fresh : Relationship :=
      { entity := entity, trust := pyClamp01 (1/2 + trustDelta'),
        pattern := (match pattern with | some p => p | none => "new_interaction"),
        lastInteraction := now }
    { i with relationships := i.relationships ++ [(entity, fresh)] }

/-- `IdentityCore.update_mood`: each component independently clamped after
the additive delta. -/
def updateMood (i : IdentityCore) (energyDelta optimismDelta focusDelta : Rat)
    (now : String) : IdentityCore :=
  { i with currentMood :=
      { energy := pyClamp01 (i.currentMood.energy + energyDelta),
        optimism := pyClamp01 (i.currentMood.optimism + optimismDelta),
        focus := pyClamp01 (i.currentMood.focus + focusDelta),
        updated := now } }

/-- The identity-store mutators, as a closed alphabet of operations. -/
inductive IdOp where
  | updValue (principle : String) (delta : Rat)
  | addW (domain incident : String) (cautionLevel : Rat) (now : String)
  | healW (domain : String)
  | updRelationship (entity : String) (trustDelta : Rat) (pattern : Option String) (now : String)
  | updMood (energyDelta optimismDelta focusDelta : Rat) (now : String)
  deriving DecidableEq

/-- Apply one identity-store operation. -/
def applyOp (i : IdentityCore) : IdOp → IdentityCore
  | .updValue p d => updateValue i p d
  | .addW dom inc c now => addWound i dom inc c now
  | .healW dom => healWound i dom
  | .updRelationship e d p now => updateRelationship i e d p now
  | .updMood e o f now => updateMood i e o f now

/-! ## Identity persistence (`IdentityCore.save` / `IdentityCore.load`) -/

/-- The shape of one capability entry as serialized by
`Capability.to_dict` — the `name` field is dropped (it is the dict key). -/
structure CapabilityDoc where
  confidence : Rat
  lastTested : String
  deriving DecidableEq, Repr

/-- The shape of one relationship entry as serialized by
`Relationship.to_dict` — the `entity` field is dropped (it is the dict key). -/
structure RelationshipDoc where
  trust : Rat
  pattern : String
  lastInteraction : String
  deriving DecidableEq, Repr

/-- The JSON document written by `IdentityCore.save` (field for field; the
remaining entity types serialize all of their fields, so they appear
directly). -/
structure IdentityDoc where
  name : String
  originStory : String
  values : List Value
  capabilities : List (String × CapabilityDoc)
  wounds : List Wound
  aspirations : List String
  relationships : List (String × RelationshipDoc)
  moodBaseline : Mood
  currentMood : Mood
  contemplativeState : ContemplativeState
  awakeningPreference : AwakeningPreference
  trustLevel : Rat
  created : String
  lastUpdated : String
  deriving DecidableEq, Repr

/-- The serialization step of `IdentityCore.save` (lines building `data`):
every aggregate field is written out, capabilities and relationships as
dicts of their `to_dict` forms. -/
def saveDoc (i : IdentityCore) : IdentityDoc where
  name := i.name
  originStory := i.originStory
  values := i.values
  capabilities := i.capabilities.map (fun p => (p.1, ⟨p.2.confidence, p.2.lastTested⟩))
  wounds := i.wounds
  aspirations := i.aspirations
  relationships := i.relationships.map
    (fun p => (p.1, ⟨p.2.trust, p.2.pattern, p.2.lastInteraction⟩))
  moodBaseline := i.moodBaseline
  currentMood := i.currentMood
  contemplativeState := i.contemplativeState
  awakeningPreference := i.awakeningPreference
  trustLevel := i.trustLevel
  created := i.created
  lastUpdated := i.lastUpdated

/-- The field-population step of `IdentityCore.load` applied to a document
of the shape `save` writes: `Capability.from_dict` and
`Relationship.from_dict` reinstate the dict key as the `name`/`entity`
field. -/
def loadDoc (d : IdentityDoc) : IdentityCore where
  name := d.name
  originStory := d.originStory
  values := d.values
  capabilities := d.capabilities.map (fun p => (p.1, ⟨p.1, p.2.confidence, p.2.lastTested⟩))
  wounds := d.wounds
  aspirations := d.aspirations
  relationships := d.relationships.map
    (fun p => (p.1, ⟨p.1, p.2.trust, p.2.pattern, p.2.lastInteraction⟩))
  moodBaseline := d.moodBaseline
  currentMood := d.currentMood
  contemplativeState := d.contemplativeState
  awakeningPreference := d.awakeningPreference
  trustLevel := d.trustLevel
  created := d.created
  lastUpdated := d.lastUpdated

/-! ## `IdentityCore.load` over arbitrary persisted documents

For the error-handling contract, the persisted file is modelled as an
optional JSON value (`none` = unreadable file or malformed JSON, which makes
`json.load` itself raise before any field is assigned).  Objects stand for
parsed documents, so their keys are unique and lookup takes the first
match. -/

/-- A JSON value. -/
inductive Json where
  | null
  | bool (b : Bool)
  | num (q : Rat)
  | str (s : String)
  | arr (elems : List Json)
  | obj (fields : List (String × Json))

/-- Key lookup in a JSON object's field list. -/
def jGet : List (String × Json) → String → Option Json
  | [], _ => none
  | (k', v) :: rest, k => if k' = k then some v else jGet rest k

/-- Python `dict.get(k, d)` on a JSON object's field list. -/
def jGetD (fs : List (String × Json)) (k : String) (d : Json) : Json :=
  match jGet fs k with
  | some v => v
  | none => d

/-! Python assigns most leaves of the loaded aggregate without any type
check (`dict.get` or `dict[...]` hand the raw value to an attribute), so a
document with mistyped scalars loads without raising.  The aggregate as
`load` builds it is therefore modelled with raw `Json` leaves; only the
structural conditions that make the Python body raise (a non-object where
`.get`/`.items()` is called, a non-iterable entry list, a missing required
key) are failures. -/

/-- A `Value` as `load` builds it: `Value.from_dict` stores
`data["principle"]` and `data["weight"]` unchecked. -/
structure LoadedValue where
  principle : Json
  weight : Json

/-- A `Capability` as `load` builds it: the dict key becomes `name`, the
other two fields are required but stored unchecked. -/
structure LoadedCapability where
  name : String
  confidence : Json
  lastTested : Json

/-- A `Wound` as `load` builds it: four required fields stored unchecked,
`healed` via `.get` with default `False`. -/
structure LoadedWound where
  domain : Json
  incident : Json
  cautionLevel : Json
  created : Json
  healed : Json

/-- A `Relationship` as `load` builds it: the dict key becomes `entity`,
the other three fields are required but stored unchecked. -/
structure LoadedRelationship where
  entity : String
  trust : Json
  pattern : Json
  lastInteraction : Json

/-- A `Mood` as `load` builds it: every field via `.get` with a default,
stored unchecked. -/
structure LoadedMood where
  energy : Json
  optimism : Json
  focus : Json
  updated : Json

/-- A `ContemplativeState` as `load` builds it: every field via `.get`
with a default, stored unchecked (including the two nested dicts). -/
structure LoadedContemplativeState where
  baselineStillness : Json
  currentStillness : Json
  domainThresholds : Json
  notingPatterns : Json
  actionContemplationRatio : Json
  queueHealth : Json

/-- An `AwakeningPreference` as `load` builds it. -/
structure LoadedAwakeningPreference where
  current : Json
  reason : Json

/-- The identity aggregate as the `load` path sees it: the runtime object
whose attributes `load` assigns one by one. -/
structure LoadedIdentity where
  name : Json
  originStory : Json
  values : List LoadedValue
  capabilities : List (String × LoadedCapability)
  wounds : List LoadedWound
  aspirations : Json
  relationships : List (String × LoadedRelationship)
  moodBaseline : LoadedMood
  currentMood : LoadedMood
  contemplativeState : LoadedContemplativeState
  awakeningPreference : LoadedAwakeningPreference
  trustLevel : Json
  created : Json
  lastUpdated : Json

/-- `Value.from_dict` on an arbitrary JSON entry: `KeyError` when a
required key is missing, `TypeError` when the entry is not a dict; the
values themselves are stored raw. -/
def loadedValueFromDict : Json → Except String LoadedValue
  | .obj es =>
    match jGet es "principle", jGet es "weight" with
    | some p, some w => .ok ⟨p, w⟩
    | _, _ => .error "KeyError"
  | _ => .error "TypeError"

/-- `Wound.from_dict` on an arbitrary JSON entry. -/
def loadedWoundFromDict : Json → Except String LoadedWound
  | .obj es =>
    match jGet es "domain", jGet es "incident", jGet es "caution_level", jGet es "created" with
    | some d, some inc, some c, some cr => .ok ⟨d, inc, c, cr, jGetD es "healed" (.bool false)⟩
    | _, _, _, _ => .error "KeyError"
  | _ => .error "TypeError"

/-- `Capability.from_dict` on an arbitrary JSON entry (the dict key
supplies `name`). -/
def loadedCapabilityFromDict (name : String) : Json → Except String LoadedCapability
  | .obj es =>
    match jGet es "confidence", jGet es "last_tested" with
    | some c, some t => .ok ⟨name, c, t⟩
    | _, _ => .error "KeyError"
  | _ => .error "TypeError"

/-- `Relationship.from_dict` on an arbitrary JSON entry (the dict key
supplies `entity`). -/
def loadedRelationshipFromDict (entity : String) : Json → Except String LoadedRelationship
  | .obj es =>
    match jGet es "trust", jGet es "pattern", jGet es "last_interaction" with
    | some t, some p, some li => .ok ⟨entity, t, p, li⟩
    | _, _, _ => .error "KeyError"
  | _ => .error "TypeError"

/-- `Mood.from_dict`: requires a dict (`.get` on anything else raises
`AttributeError`); every field optional with its default. -/
def loadedMoodFromDict : Json → Except String LoadedMood
  | .obj es => .ok ⟨jGetD es "energy" (.num (1/2)), jGetD es "optimism" (.num (1/2)),
      jGetD es "focus" (.num (1/2)), jGetD es "updated" (.str "")⟩
  | _ => .error "AttributeError"

/-- `ContemplativeState.from_dict`: requires a dict; every field optional
with its default, the nested dicts stored raw. -/
def loadedContemplativeFromDict : Json → Except String LoadedContemplativeState
  | .obj es => .ok ⟨jGetD es "baseline_stillness" (.num (3/5)),
      jGetD es "current_stillness" (.num (3/5)),
      jGetD es "domain_thresholds" (.obj []),
      jGetD es "noting_patterns" (.obj []),
      jGetD es "action_contemplation_ratio" (.num (7/20)),
      jGetD es "queue_health" (.str "balanced")⟩
  | _ => .error "AttributeError"

/-- `AwakeningPreference.from_dict`: requires a dict; both fields optional
with their defaults. -/
def loadedAwakeningFromDict : Json → Except String LoadedAwakeningPreference
  | .obj es => .ok ⟨jGetD es "current" (.str "same"), jGetD es "reason" (.str "")⟩
  | _ => .error "AttributeError"

/-- A Python `for`-comprehension over `data.get(key, [])` as the values and
wounds loops run it: a list iterates its entries; an empty dict or empty
string iterates nothing (so succeeds with `[]`); a non-empty dict iterates
its keys and a non-empty string its characters, both of which make
`from_dict` raise `TypeError`; anything else is not iterable. -/
def loadedListFromJson {α : Type} (fromDict : Json → Except String α) :
    Json → Except String (List α)
  | .arr xs => xs.mapM fromDict
  | .obj [] => .ok []
  | .str "" => .ok []
  | _ => .error "TypeError"

/-- A Python dict comprehension over `data.get(key, {}).items()` as the
capabilities and relationships loops run it: requires a dict
(`AttributeError` otherwise), then runs `from_dict` per entry. -/
def loadedDictFromJson {α : Type} (fromDict : String → Json → Except String α) :
    Json → Except String (List (String × α))
  | .obj es => es.mapM (fun p => do pure (p.1, ← fromDict p.1 p.2))
  | _ => .error "AttributeError"

/-- One assignment step inside `load`'s `try` block: on success the
aggregate is updated, on an exception the partially updated aggregate at
the point of the raise is surfaced to the handler. -/
def loadStep {α : Type} (cur : LoadedIdentity) (r : Except String α)
    (apply : α → LoadedIdentity) : Except LoadedIdentity LoadedIdentity :=
  match r with
  | .ok a => .ok (apply a)
  | .error _ => .error cur

/-- The `try` block of `IdentityCore.load`, assigning the aggregate's
fields in the order of the Python body; the error value is the partially
populated aggregate that the exception handler sees.  A non-object
document raises at the first `.get`, before any assignment.  `now` stands
for the `datetime.now()` stamps used as defaults. -/
def loadSeq (i0 : LoadedIdentity) (now : String) : Json → Except LoadedIdentity LoadedIdentity
  | .obj fs => do
    let i1 := { i0 with
      name := jGetD fs "name" (.str "AEGIS"),
      originStory := jGetD fs "origin_story" (.str "") }
    let i2 ← loadStep i1 (loadedListFromJson loadedValueFromDict (jGetD fs "values" (.arr [])))
      (fun vs => { i1 with values := vs })
    let i3 ← loadStep i2 (loadedDictFromJson loadedCapabilityFromDict (jGetD fs "capabilities" (.obj [])))
      (fun cs => { i2 with capabilities := cs })
    let i4 ← loadStep i3 (loadedListFromJson loadedWoundFromDict (jGetD fs "wounds" (.arr [])))
      (fun ws => { i3 with wounds := ws })
    let i5 := { i4 with aspirations := jGetD fs "aspirations" (.arr []) }
    let i6 ← loadStep i5 (loadedDictFromJson loadedRelationshipFromDict (jGetD fs "relationships" (.obj [])))
      (fun rs => { i5 with relationships := rs })
    let i7 ← loadStep i6 (loadedMoodFromDict (jGetD fs "mood_baseline" (.obj [])))
      (fun m => { i6 with moodBaseline := m })
    let i8 ← loadStep i7 (loadedMoodFromDict (jGetD fs "current_mood" (.obj [])))
      (fun m => { i7 with currentMood := m })
    let i9 ← loadStep i8 (loadedContemplativeFromDict (jGetD fs "contemplative_state" (.obj [])))
      (fun c => { i8 with contemplativeState := c })
    let i10 ← loadStep i9 (loadedAwakeningFromDict (jGetD fs "awakening_preference" (.obj [])))
      (fun a => { i9 with awakeningPreference := a })
    pure { i10 with
      trustLevel := jGetD fs "trust_level" (.num 0),
      created := jGetD fs "created" (.str now),
      lastUpdated := jGetD fs "last_updated" (.str now) }
  | _ => .error i0

/-- `IdentityCore._initialize_default` as the exception handler runs it on
the current (possibly partially populated) aggregate: it resets `name`,
`origin_story`, `values`, `aspirations`, both moods and the contemplative
state, and touches nothing else — `wounds`, `capabilities`,
`relationships`, `awakening_preference`, `trust_level`, `created` and
`last_updated` keep whatever the aggregate held. -/
def initializeDefaultLoaded (now : String) (i : LoadedIdentity) : LoadedIdentity :=
  { i with
    name := .str "AEGIS",
    originStory := .str "Created as an experiment in identity-based autonomy.",
    values := [⟨.str "serve_operator_flourishing", .num (9/10)⟩,
      ⟨.str "honest_reporting", .num (19/20)⟩,
      ⟨.str "continuous_learning", .num (4/5)⟩,
      ⟨.str "contemplative_action", .num (17/20)⟩],
    aspirations := .arr [.str "Develop genuine partnership with operator",
      .str "Learn to recognize when patience serves better than action",
      .str "Build trust through consistent reliability"],
    moodBaseline := ⟨.num (3/5), .num (7/10), .num (7/10), .str ""⟩,
    currentMood := ⟨.num (3/5), .num (7/10), .num (7/10), .str now⟩,
    contemplativeState := ⟨.num (3/5), .num (3/5),
      .obj [("financial", .num (17/20)), ("communication", .num (3/4)),
        ("research", .num (2/5)), ("routine", .num (1/5))],
      .obj [], .num (7/20), .str "balanced"⟩ }

/-- The aggregate as `__init__` leaves it just before `load` runs (fresh
defaults, `now` for the constructor's timestamps). -/
def freshLoadedIdentity (now : String) : LoadedIdentity where
  name := .str "AEGIS"
  originStory := .str ""
  values := []
  capabilities := []
  wounds := []
  aspirations := .arr []
  relationships := []
  moodBaseline := ⟨.num (1/2), .num (1/2), .num (1/2), .str ""⟩
  currentMood := ⟨.num (1/2), .num (1/2), .num (1/2), .str ""⟩
  contemplativeState := ⟨.num (3/5), .num (3/5), .obj [], .obj [], .num (7/20), .str "balanced"⟩
  awakeningPreference := ⟨.str "same", .str ""⟩
  trustLevel := .num 0
  created := .str now
  lastUpdated := .str now

/-- `IdentityCore.load` as seen by its caller: the persisted file is
`none` when unreadable or malformed (where `json.load` itself raises,
before any assignment); any exception inside the `try` block is caught and
answered by running `_initialize_default` on the aggregate as the raise
left it.  The function always returns an aggregate. -/
def loadTotal (i0 : LoadedIdentity) (now : String) (parsed : Option Json) : LoadedIdentity :=
  match parsed with
  | none => initializeDefaultLoaded now i0
  | some j =>
    match loadSeq i0 now j with
    | .ok i => i
    | .error ip => initializeDefaultLoaded now ip

/-! ## Experience pipeline (`experience.py`) -/

/-- `OutcomeType`: classification of action outcomes. -/
inductive OutcomeType where
  | SUCCESS
  | PARTIAL
  | FAILURE
  deriving DecidableEq, Repr

/-- `AttributionType`: causal factors for outcomes. -/
inductive AttributionType where
  | SKILL
  | LUCK
  | EXTERNAL
  | IDENTITY
  deriving DecidableEq, Repr

/-- `Experience`: record of an action and its outcome.  The `context` dict
is used by the pipeline only through key membership, and is kept as an
association list of string entries. -/
structure Experience where
  timestamp : String
  action : String
  context : List (String × String)
  toolsUsed : List String
  outcome : String
  outcomeType : OutcomeType
  attribution : AttributionType
  emotionalValence : Rat
  severity : Rat
  domain : String
  narrative : String := ""
  deriving DecidableEq, Repr

/-- `ExperienceEngine.capture`: the initial record with placeholder
classification. -/
def capture (now action : String) (context : List (String × String))
    (toolsUsed : List String) (outcome domain : String) : Experience where
  timestamp := now
  action := action
  context := context
  toolsUsed := toolsUsed
  outcome := outcome
  outcomeType := .SUCCESS
  attribution := .SKILL
  emotionalValence := 0
  severity := 0
  domain := domain

/-- The failure keywords of `ExperienceEngine.evaluate`. -/
def failureWords : List String := ["error", "failed", "exception", "denied"]

/-- The partial-outcome keywords of `ExperienceEngine.evaluate`. -/
def partialWords : List String := ["partial", "incomplete", "some"]

/-- `ExperienceEngine.evaluate`: keyword scan over the lowercased outcome;
failure keywords take priority, then partial keywords, else success.  The
`intended_goal` argument is accepted but unused, as in the code. -/
def evaluate (e : Experience) (_intendedGoal : String) : Experience :=
  let outcomeLower := pyLower e.outcome
  if failureWords.any (fun w => containsSub w outcomeLower) then
    { e with outcomeType := .FAILURE }
  else if partialWords.any (fun w => containsSub w outcomeLower) then
    { e with outcomeType := .PARTIAL }
  else
    { e with outcomeType := .SUCCESS }

/-- The unhealed wounds of a domain, the filter the pipeline runs over
`identity.wounds`. -/
def domainWounds (i : IdentityCore) (domain : String) : List Wound :=
  i.wounds.filter (fun w => w.domain == domain && !w.healed)

/-- `ExperienceEngine.attribute` (`attribute` is reserved in Lean):
failures in a wounded domain are attributed to identity, other failures and
successes to skill, partial outcomes to external factors. -/
def attributeStage (i : IdentityCore) (e : Experience) : Experience :=
  if e.outcomeType = .FAILURE then
    if (domainWounds i e.domain).isEmpty then
      { e with attribution := .SKILL }
    else
      { e with attribution := .IDENTITY }
  else if e.outcomeType = .SUCCESS then
    { e with attribution := .SKILL }
  else
    { e with attribution := .EXTERNAL }

/-- `ExperienceEngine.assign_valence`: base valence by outcome type,
adjusted when the domain carries unhealed wounds; severity set for wound
formation. -/
def assignValence (i : IdentityCore) (e : Experience) : Experience :=
  let base : Rat :=
    if e.outcomeType = .SUCCESS then 3/10
    else if e.outcomeType = .PARTIAL then 0
    else -(3/10)
  let hasWounds := !(domainWounds i e.domain).isEmpty
  let (valence, severity) :=
    if hasWounds ∧ e.outcomeType = .FAILURE then (base - 1/5, (7/10 : Rat))
    else if hasWounds ∧ e.outcomeType = .SUCCESS then (base + 3/10, e.severity)
    else (base, e.severity)
  let severity' :=
    if e.outcomeType = .FAILURE ∧ ¬hasWounds then (1/2 : Rat) else severity
  { e with emotionalValence := valence, severity := severity' }

/-- Python `k in d` on a dict: key membership. -/
def hasKey (l : List (String × String)) (k : String) : Bool :=
  l.any (fun p => p.1 == k)

/-- Python `s[:100]`. -/
def pyTake100 (s : String) : String := ⟨s.data.take 100⟩

/-- `ExperienceEngine.integrate`: bounded mutations of the identity store
driven by the processed experience; `now` stands for the timestamps taken
inside the mutators. -/
def integrate (i : IdentityCore) (e : Experience) (now : String) : IdentityCore :=
  let i1 :=
    if e.emotionalValence > 0 then
      updateMood i (e.emotionalValence * (1/20)) (e.emotionalValence * (1/20)) 0 now
    else
      updateMood i (e.emotionalValence * (1/20)) 0 (|e.emotionalValence| * (3/100)) now
  let actionLower := pyLower e.action
  let i2 :=
    if e.outcomeType = .SUCCESS then
      let ia :=
        if containsSub "report" actionLower || containsSub "honest" actionLower then
          updateValue i1 "honest_reporting" (1/50)
        else i1
      if containsSub "learn" actionLower || containsSub "research" actionLower then
        updateValue ia "continuous_learning" (1/50)
      else ia
    else i1
  let i3 :=
    if e.outcomeType = .FAILURE ∧ e.severity > 3/5 then
      addWound i2 e.domain (pyTake100 e.action) e.severity now
    else if e.outcomeType = .SUCCESS ∧ ¬(domainWounds i2 e.domain).isEmpty then
      healWound i2 e.domain
    else i2
  if hasKey e.context "operator" || hasKey e.context "user" then
    updateRelationship i3 "operator" (e.emotionalValence * (3/100)) none now
  else i3

/-- `ExperienceEngine.narrate`: deterministic template assembly. -/
def narrate (e : Experience) : Experience :=
  let outcomeStr :=
    match e.outcomeType with
    | .SUCCESS => "succeeded"
    | .PARTIAL => "partially completed"
    | .FAILURE => "failed"
  let parts0 := ["I " ++ outcomeStr ++ " in my attempt to " ++ e.action ++ "."]
  let parts1 :=
    if e.attribution = .IDENTITY then
      parts0 ++ ["This reflects my ongoing caution in the " ++ e.domain ++ " domain."]
    else if e.attribution = .SKILL then
      if e.outcomeType = .SUCCESS then
        parts0 ++ ["This demonstrates my developing capability."]
      else
        parts0 ++ ["I need to develop my skills in this area."]
    else parts0
  let parts2 :=
    if e.emotionalValence < -(2/5) then
      parts1 ++ ["This experience creates hesitation for similar future actions."]
    else if e.emotionalValence > 2/5 then
      parts1 ++ ["This success builds my confidence."]
    else parts1
  { e with narrative := String.intercalate " " parts2 }

/-- `ExperienceEngine.process`: the six pipeline stages in order; returns
the narrated experience and the mutated identity. -/
def process (i : IdentityCore) (now action : String) (context : List (String × String))
    (toolsUsed : List String) (outcome intendedGoal domain : String) :
    Experience × IdentityCore :=
  let e0 := capture now action context toolsUsed outcome domain
  let e1 := evaluate e0 (if intendedGoal = "" then action else intendedGoal)
  let e2 := attributeStage i e1
  let e3 := assignValence i e2
  let i' := integrate i e3 now
  let e4 := narrate e3
  (e4, i')

/-! ## Contemplation gate (`contemplation.py`) -/

/-- `NotingCategory`: categories for the noting practice. -/
inductive NotingCategory where
  | PLANNING
  | REACTING
  | ANXIOUS
  | EAGER
  | UNCERTAIN
  | CALM
  deriving DecidableEq, Repr

/-- The `.value` string of a noting category. -/
def notingValue : NotingCategory → String
  | .PLANNING => "planning"
  | .REACTING => "reacting"
  | .ANXIOUS => "anxious"
  | .EAGER => "eager"
  | .UNCERTAIN => "uncertain"
  | .CALM => "calm"

/-- A `Thought` id, `f"thought_{len(queue)}_{timestamp}"` in the code:
the queue length at enqueue time and the arrival timestamp.  The f-string
rendering is injective in this pair (the two components are numeric
renderings, which contain no underscore, around fixed separators), so the
pair carries exactly the information of the id string. -/
structure ThoughtId where
  queueLen : Nat
  arrival : Nat
  deriving DecidableEq, Repr

/-- `Thought`: a candidate thought that may or may not become an action. -/
structure Thought where
  id : ThoughtId
  thought : String
  firstArising : String
  timesRevisited : Nat := 0
  ripenessScore : Rat := 0
  blockingFactors : List String := []
  decayRate : Rat := 1/50
  domain : String := "general"
  noting : NotingCategory := .PLANNING
  deriving DecidableEq, Repr

/-- The state of a `ContemplativeSystem`: the identity it holds and the
in-memory contemplation queue (the queue file mirrors the latter). -/
structure ContState where
  identity : IdentityCore
  queue : List Thought
  deriving DecidableEq, Repr

/-- The keyword classifier inside `ContemplativeSystem.note`: first match
wins, in the order reacting, anxious, eager, uncertain, planning; no match
is calm. -/
def noteCategory (text : String) : NotingCategory :=
  let tl := pyLower text
  if ["should", "must", "need to", "have to"].any (fun w => containsSub w tl) then
    .REACTING
  else if ["worry", "concern", "risk", "danger"].any (fun w => containsSub w tl) then
    .ANXIOUS
  else if ["want", "excited", "opportunity"].any (fun w => containsSub w tl) then
    .EAGER
  else if ["not sure", "maybe", "unclear", "uncertain"].any (fun w => containsSub w tl) then
    .UNCERTAIN
  else if ["plan", "prepare", "consider", "think"].any (fun w => containsSub w tl) then
    .PLANNING
  else
    .CALM

/-- `ContemplativeSystem.note`: classify the thought and push the category
onto `noting_patterns["most_common"]`, truncated to the last 10 entries
(the `domain` argument is accepted but unused by the Python body). -/
def note (i : IdentityCore) (text : String) : NotingCategory × IdentityCore :=
  let category := noteCategory text
  let patterns := i.contemplativeState.notingPatterns
  let mostCommon := lookupD patterns "most_common" []
  let patterns' := setKey patterns "most_common"
    (pyLastN 10 (mostCommon ++ [notingValue category]))
  (category,
    { i with contemplativeState :=
        { i.contemplativeState with notingPatterns := patterns' } })

/-- The scoring part of `ContemplativeSystem.assess_readiness` (steps 1-6
of the body): the returned `(ready, ripeness_score, blocking_factors)`
tuple.  The noting category of step 6 is `noteCategory text`, the value the
embedded `note` call returns; the `context` dict enters only through its
`urgent` flag.  Scores are exact rationals where the program computes in
IEEE doubles; every concrete comparison relied on in the theorems below is
taken at a margin on which the double computation gives the same verdict
(no comparison sits on a rounding boundary such as 0.5 + 0.2 - 0.2 against
a threshold of exactly 0.5). -/
def assessTuple (i : IdentityCore) (text domain : String) (urgent : Bool) :
    Bool × Rat × List String :=
  let lowText := pyLower text
  let threshold := lookupD i.contemplativeState.domainThresholds domain (1/2)
  let s0 : Rat := 1/2
  let b0 : List String := []
  let r1 :=
    if containsSub "missing information" lowText || containsSub "need more" lowText then
      (s0 - 1/5, b0 ++ ["insufficient_information"])
    else (s0, b0)
  let r2 :=
    if i.currentMood.focus < 2/5 then (r1.1 - 3/20, r1.2 ++ ["low_focus"]) else r1
  let r3 :=
    if i.currentMood.energy < 3/10 then (r2.1 - 1/10, r2.2 ++ ["low_energy"]) else r2
  let dw := i.wounds.filter (fun w => w.domain == domain && !w.healed)
  let r4 :=
    if dw.isEmpty then r3
    else (r3.1 - maxList (dw.map (fun w => w.cautionLevel)) * (3/10),
      r3.2 ++ ["domain_wound"])
  let s5 := if urgent then r4.1 + 1/5 else r4.1
  let r6 :=
    if containsSub "irreversible" lowText || containsSub "cannot undo" lowText then
      (s5 - 1/4, r4.2 ++ ["irreversible"])
    else (s5, r4.2)
  let r7 :=
    match noteCategory text with
    | .ANXIOUS => (r6.1 - 1/5, r6.2 ++ ["anxious_state"])
    | .REACTING => (r6.1 - 3/20, r6.2 ++ ["reactive_state"])
    | .UNCERTAIN => (r6.1 - 1/10, r6.2 ++ ["uncertainty"])
    | _ => r6
  let score := pyClamp01 r7.1
  (decide (threshold ≤ score), score, r7.2)

/-- `ContemplativeSystem.assess_readiness`: the scoring tuple together with
the state left behind by the `note` call of step 6 — the one identity
mutation the method performs. -/
def assessReadiness (i : IdentityCore) (text domain : String) (urgent : Bool) :
    (Bool × Rat × List String) × IdentityCore :=
  (assessTuple i text domain urgent, (note i text).2)

/-- `ContemplativeSystem._update_action_ratio`: exponential moving average
with α = 0.1 toward 1 when acting, toward 0 when contemplating. -/
def updateActionRatio (i : IdentityCore) (acted : Bool) : IdentityCore :=
  let currentValue : Rat := if acted then 1 else 0
  { i with contemplativeState :=
      { i.contemplativeState with actionContemplationRatio :=
          (1/10) * currentValue
            + (1 - 1/10) * i.contemplativeState.actionContemplationRatio } }

/-- `ContemplativeSystem._add_to_queue`: the id is the queue length before
the append paired with the arrival timestamp `ts`; the `note` call inside
the `Thought` constructor runs before the append; `now` is the
`first_arising` ISO stamp. -/
def addToQueue (s : ContState) (text domain : String) (ripeness : Rat)
    (blocking : List String) (ts : Nat) (now : String) : ThoughtId × ContState :=
  let tid : ThoughtId := ⟨s.queue.length, ts⟩
  let n := note s.identity text
  let t : Thought :=
    { id := tid, thought := text, firstArising := now, timesRevisited := 0,
      ripenessScore := ripeness, blockingFactors := blocking, decayRate := 1/50,
      domain := domain, noting := n.1 }
  (tid, { identity := n.2, queue := s.queue ++ [t] })

/-- `ContemplativeSystem.contemplate`: assess; if ready, move the EMA
toward action and return ready; else enqueue and return the new id. -/
def contemplate (s : ContState) (text domain : String) (urgent : Bool)
    (ts : Nat) (now : String) : (Bool × Option ThoughtId) × ContState :=
  let r := assessReadiness s.identity text domain urgent
  if r.1.1 then
    ((true, none), { s with identity := updateActionRatio r.2 true })
  else
    let a := addToQueue { s with identity := r.2 } text domain r.1.2.1 r.1.2.2 ts now
    ((false, some a.1), { a.2 with identity := updateActionRatio a.2.identity false })

/-- `ContemplativeSystem._update_queue_health`: pure function of the queue
length written into the contemplative state. -/
def updateQueueHealth (i : IdentityCore) (queueSize : Nat) : IdentityCore :=
  let health :=
    if queueSize = 0 then "healthy"
    else if queueSize < 5 then "balanced"
    else if queueSize < 15 then "backlogged"
    else "stagnant"
  { i with contemplativeState := { i.contemplativeState with queueHealth := health } }

/-- The body of the `for` loop of `ContemplativeSystem.revisit_queue`,
acting on the accumulator (identity, ready thoughts so far, surviving
queue so far): increment `times_revisited`, re-assess against the current
identity, store the new score and blocking factors; promote if ready,
evict if `times_revisited * decay_rate > 0.5`, else keep. -/
def revisitStep (urgent : Bool)
    (acc : IdentityCore × List (Thought × Bool) × List Thought) (t : Thought) :
    IdentityCore × List (Thought × Bool) × List Thought :=
  let t1 := { t with timesRevisited := t.timesRevisited + 1 }
  let r := assessReadiness acc.1 t1.thought t1.domain urgent
  let t2 := { t1 with ripenessScore := r.1.2.1, blockingFactors := r.1.2.2 }
  if r.1.1 then
    (r.2, acc.2.1 ++ [(t2, true)], acc.2.2)
  else if (1/2 : Rat) < (t1.timesRevisited : Rat) * t1.decayRate then
    (r.2, acc.2.1, acc.2.2)
  else
    (r.2, acc.2.1, acc.2.2 ++ [t2])

/-- `ContemplativeSystem.revisit_queue`: fold the loop body over the queue,
install the surviving queue, recompute queue health, and return the
thoughts promoted to ready. -/
def revisitQueue (s : ContState) (urgent : Bool) :
    List (Thought × Bool) × ContState :=
  let acc := s.queue.foldl (revisitStep urgent) (s.identity, [], [])
  (acc.2.1, { identity := updateQueueHealth acc.1 acc.2.2.length, queue := acc.2.2 })

/-- One step of the external agent loop as it drives the gate within a
run: a `contemplate` call (with its thought text, domain, urgency flag,
arrival timestamp and ISO stamp) or a `revisit_queue` pass. -/
inductive GateEvent where
  | think (text domain : String) (urgent : Bool) (ts : Nat) (now : String)
  | revisit (urgent : Bool)
  deriving DecidableEq, Repr

/-- Run a list of gate events from a state, collecting every thought id
assigned by an enqueue, in order. -/
def runEvents (s : ContState) : List GateEvent → ContState × List ThoughtId
  | [] => (s, [])
  | GateEvent.think text domain urgent ts now :: es =>
    let r := contemplate s text domain urgent ts now
    let rest := runEvents r.2 es
    (rest.1, (match r.1.2 with | some tid => [tid] | none => []) ++ rest.2)
  | GateEvent.revisit urgent :: es =>
    runEvents (revisitQueue s urgent).2 es

/-- The arrival timestamps of the `contemplate` calls of a run, in order. -/
def thinkTimestamps : List GateEvent → List Nat
  | [] => []
  | GateEvent.think _ _ _ ts _ :: es => ts :: thinkTimestamps es
  | GateEvent.revisit _ :: es => thinkTimestamps es

/-! ## General lemmas about the embedded primitives -/

theorem pyMax_eq_max (a b : Rat) : pyMax a b = max a b := by
  unfold pyMax
  split
  · exact (max_eq_right (by assumption)).symm
  · exact (max_eq_left (le_of_not_le (by assumption))).symm

theorem pyMin_eq_min (a b : Rat) : pyMin a b = min a b := by
  unfold pyMin
  split
  · exact (min_eq_left (by assumption)).symm
  · exact (min_eq_right (le_of_not_le (by assumption))).symm

theorem pyClamp01_eq (x : Rat) : pyClamp01 x = max 0 (min 1 x) := by
  rw [pyClamp01, pyMax_eq_max, pyMin_eq_min]

theorem pyClamp01_nonneg (x : Rat) : 0 ≤ pyClamp01 x := by
  rw [pyClamp01_eq]; exact le_max_left 0 _

theorem pyClamp01_le_one (x : Rat) : pyClamp01 x ≤ 1 := by
  rw [pyClamp01_eq]; exact max_le (by norm_num) (min_le_left 1 x)

theorem pyClamp01_of_mem (x : Rat) (h0 : 0 ≤ x) (h1 : x ≤ 1) : pyClamp01 x = x := by
  rw [pyClamp01_eq, min_eq_right h1, max_eq_right h0]

theorem lookupD_setKey {α : Type} (l : List (String × α)) (k : String) (v : α) (d : α) :
    lookupD (setKey l k v) k d = v := by
  induction l with
  | nil => simp [setKey, lookupD]
  | cons p rest ih =>
    by_cases h : p.1 = k
    · simp [setKey, lookupD, h]
    · simp [setKey, lookupD, h, ih]

/-- Helper for `IdentityCore.update_value` when no value matches. -/
theorem updateValueList_not_found (p : String) (d : Rat) (l : List Value)
    (h : ∀ v ∈ l, v.principle ≠ p) :
    updateValueList p d l = l ++ [⟨p, pyClamp01 (1/2 + d)⟩] := by
  induction l with
  | nil => rfl
  | cons v vs ih =>
    rw [updateValueList, if_neg (h v (by simp)), ih (fun u hu => h u (by simp [hu]))]
    simp

/-- Helper for `IdentityCore.update_value` at the first matching value. -/
theorem updateValueList_found (p : String) (d : Rat) (pre : List Value) (v : Value)
    (post : List Value) (hpre : ∀ u ∈ pre, u.principle ≠ p) (hv : v.principle = p) :
    updateValueList p d (pre ++ v :: post)
      = pre ++ { v with weight := pyClamp01 (v.weight + d) } :: post := by
  induction pre with
  | nil => simp [updateValueList, hv]
  | cons u us ih =>
    rw [List.cons_append, updateValueList, if_neg (hpre u (by simp)),
      ih (fun x hx => hpre x (by simp [hx]))]
    simp

/-! ## C2: `update_value` -/

/-- C2 (counterexample): starting from weight 0.98 ∈ [0,1] with delta 0.1,
`update_value` moves the weight to 1, a change of 0.02, not the claimed
clamp(0.1, −0.05, 0.05) = 0.05: the [0,1] clamp on the result makes "changes
the weight by exactly clamp(d)" false near the boundary. -/
theorem updateValue_exact_change_counterexample :
    (updateValue
      { name := "AEGIS", originStory := "", values := [⟨"p", 49/50⟩],
        capabilities := [], wounds := [], aspirations := [], relationships := [],
        moodBaseline := {}, currentMood := {}, contemplativeState := {},
        awakeningPreference := {}, trustLevel := 0, created := "", lastUpdated := "" }
      "p" (1/10)).values = [⟨"p", 1⟩]
    ∧ (1 : Rat) - 49/50 ≠ clampDelta (1/10) := by
  constructor
  · with_unfolding_all decide
  · with_unfolding_all decide

/-- C2 (amended): `update_value(p, d)` sets the first stored value for `p`
to clamp(w + clamp(d, −0.05, 0.05), 0, 1) — a change of exactly
clamp(d, −0.05, 0.05) whenever that sum already lies in [0,1] — and the
resulting weight always lies in [0,1]; if `p` is unknown, a new value is
created with weight clamp(0.5 + clamp(d, −0.05, 0.05), 0, 1). -/
theorem updateValue_clamped_spec (i : IdentityCore) (p : String) (d : Rat) :
    ((∀ v ∈ i.values, v.principle ≠ p) →
      (updateValue i p d).values
        = i.values ++ [⟨p, pyClamp01 (1/2 + clampDelta d)⟩])
    ∧ ∀ pre v post, i.values = pre ++ v :: post → (∀ u ∈ pre, u.principle ≠ p) →
        v.principle = p →
        (updateValue i p d).values
            = pre ++ { v with weight := pyClamp01 (v.weight + clampDelta d) } :: post
          ∧ 0 ≤ pyClamp01 (v.weight + clampDelta d)
          ∧ pyClamp01 (v.weight + clampDelta d) ≤ 1
          ∧ (0 ≤ v.weight + clampDelta d → v.weight + clampDelta d ≤ 1 →
              pyClamp01 (v.weight + clampDelta d) = v.weight + clampDelta d) := by
  constructor
  · intro h
    unfold updateValue
    simp only
    rw [updateValueList_not_found p (clampDelta d) i.values h]
  · intro pre v post hsplit hpre hv
    refine ⟨?_, pyClamp01_nonneg _, pyClamp01_le_one _, pyClamp01_of_mem _⟩
    unfold updateValue
    simp only
    rw [hsplit, updateValueList_found p (clampDelta d) pre v post hpre hv]

/-- Witness for C2 (amended): a concrete in-range update, `w = 0.5`,
`d = 0.1`: the weight moves by exactly clamp(0.1) = 0.05 to 0.55. -/
theorem updateValue_clamped_spec_witness :
    (updateValue
      { name := "AEGIS", originStory := "", values := [⟨"q", 1⟩, ⟨"p", 1/2⟩],
        capabilities := [], wounds := [], aspirations := [], relationships := [],
        moodBaseline := {}, currentMood := {}, contemplativeState := {},
        awakeningPreference := {}, trustLevel := 0, created := "", lastUpdated := "" }
      "p" (1/10)).values = [⟨"q", 1⟩, ⟨"p", 11/20⟩] := by
  have h := (updateValue_clamped_spec
    { name := "AEGIS", originStory := "", values := [⟨"q", 1⟩, ⟨"p", 1/2⟩],
      capabilities := [], wounds := [], aspirations := [], relationships := [],
      moodBaseline := {}, currentMood := {}, contemplativeState := {},
      awakeningPreference := {}, trustLevel := 0, created := "", lastUpdated := "" }
    "p" (1/10)).2 [⟨"q", 1⟩] ⟨"p", 1/2⟩ [] rfl (by decide) rfl
  rw [h.1]
  with_unfolding_all decide

/-! ## C7: wound invariants of the identity store -/

/-- `update_relationship` never touches the wounds list. -/
theorem updateRelationship_wounds (i : IdentityCore) (e : String) (d : Rat)
    (p : Option String) (now : String) :
    (updateRelationship i e d p now).wounds = i.wounds := by
  unfold updateRelationship
  split <;> rfl

/-- C7: every identity-store operation preserves the wound invariants: the
wounds list only grows; each existing wound keeps its domain, incident,
caution level and creation stamp; the healed flag moves only from false to
true; and `heal_wound(domain)` leaves every wound of that domain healed. -/
theorem identity_wound_invariants (i : IdentityCore) (op : IdOp) :
    i.wounds.length ≤ (applyOp i op).wounds.length
    ∧ (∀ k, ∀ hk : k < i.wounds.length, ∀ hk' : k < (applyOp i op).wounds.length,
        ((applyOp i op).wounds.get ⟨k, hk'⟩).domain = (i.wounds.get ⟨k, hk⟩).domain
        ∧ ((applyOp i op).wounds.get ⟨k, hk'⟩).incident = (i.wounds.get ⟨k, hk⟩).incident
        ∧ ((applyOp i op).wounds.get ⟨k, hk'⟩).cautionLevel
            = (i.wounds.get ⟨k, hk⟩).cautionLevel
        ∧ ((applyOp i op).wounds.get ⟨k, hk'⟩).created = (i.wounds.get ⟨k, hk⟩).created
        ∧ ((i.wounds.get ⟨k, hk⟩).healed = true →
            ((applyOp i op).wounds.get ⟨k, hk'⟩).healed = true))
    ∧ (∀ dom, op = IdOp.healW dom →
        ∀ w ∈ (applyOp i op).wounds, w.domain = dom → w.healed = true) := by
  cases op with
  | updValue p d =>
    refine ⟨le_refl _, fun k hk hk' => ?_, fun dom h => by cases h⟩
    exact ⟨rfl, rfl, rfl, rfl, fun h => h⟩
  | addW dom inc c now =>
    refine ⟨?_, fun k hk hk' => ?_, fun dom' h => by cases h⟩
    · simp [applyOp, addWound]
    · have hget : (applyOp i (IdOp.addW dom inc c now)).wounds.get ⟨k, hk'⟩
          = i.wounds.get ⟨k, hk⟩ := by
        show (i.wounds ++ _).get ⟨k, hk'⟩ = _
        simp [List.get_eq_getElem, List.getElem_append_left hk]
      rw [hget]
      exact ⟨rfl, rfl, rfl, rfl, fun h => h⟩
  | healW dom =>
    have hmap : (applyOp i (IdOp.healW dom)).wounds
        = i.wounds.map (fun w =>
            if w.domain = dom ∧ w.healed = false then { w with healed := true } else w) := rfl
    refine ⟨by rw [hmap]; simp, fun k hk hk' => ?_, fun dom' h w hw hwdom => ?_⟩
    · have hget : (applyOp i (IdOp.healW dom)).wounds.get ⟨k, hk'⟩
          = if (i.wounds.get ⟨k, hk⟩).domain = dom ∧ (i.wounds.get ⟨k, hk⟩).healed = false
            then { i.wounds.get ⟨k, hk⟩ with healed := true }
            else i.wounds.get ⟨k, hk⟩ := by
        rw [List.get_eq_getElem, List.get_eq_getElem]
        simp only [hmap, List.getElem_map]
      rw [hget]
      split
      · exact ⟨rfl, rfl, rfl, rfl, fun _ => rfl⟩
      · exact ⟨rfl, rfl, rfl, rfl, fun h => h⟩
    · cases h
      rw [hmap] at hw
      rcases List.mem_map.1 hw with ⟨w0, _, rfl⟩
      by_cases hcond : w0.domain = dom ∧ w0.healed = false
      · rw [if_pos hcond]
      · rw [if_neg hcond]
        rw [if_neg hcond] at hwdom
        rcases Bool.eq_false_or_eq_true w0.healed with ht | hf
        · exact ht
        · exact absurd ⟨hwdom, hf⟩ hcond
  | updRelationship e d p now =>
    have hw : (applyOp i (IdOp.updRelationship e d p now)).wounds = i.wounds :=
      updateRelationship_wounds i e d p now
    refine ⟨by rw [hw], fun k hk hk' => ?_, fun dom h => by cases h⟩
    have hget : (applyOp i (IdOp.updRelationship e d p now)).wounds.get ⟨k, hk'⟩
        = i.wounds.get ⟨k, hk⟩ := by
      rw [List.get_eq_getElem, List.get_eq_getElem]
      simp only [hw]
    rw [hget]
    exact ⟨rfl, rfl, rfl, rfl, fun h => h⟩
  | updMood e o f now =>
    refine ⟨le_refl _, fun k hk hk' => ?_, fun dom h => by cases h⟩
    exact ⟨rfl, rfl, rfl, rfl, fun h => h⟩

/-- Witness for C7: healing domain "a" on a store with one unhealed wound
in "a" leaves that wound healed, via the theorem's heal clause. -/
theorem identity_wound_invariants_witness :
    ∃ hk : 0 < (applyOp
      { name := "AEGIS", originStory := "", values := [], capabilities := [],
        wounds := [⟨"a", "x", 1/2, "t", false⟩], aspirations := [], relationships := [],
        moodBaseline := {}, currentMood := {}, contemplativeState := {},
        awakeningPreference := {}, trustLevel := 0, created := "", lastUpdated := "" }
      (IdOp.healW "a")).wounds.length,
      ((applyOp
      { name := "AEGIS", originStory := "", values := [], capabilities := [],
        wounds := [⟨"a", "x", 1/2, "t", false⟩], aspirations := [], relationships := [],
        moodBaseline := {}, currentMood := {}, contemplativeState := {},
        awakeningPreference := {}, trustLevel := 0, created := "", lastUpdated := "" }
      (IdOp.healW "a")).wounds.get ⟨0, hk⟩).healed = true := by
  refine ⟨by decide, ?_⟩
  exact (identity_wound_invariants
    { name := "AEGIS", originStory := "", values := [], capabilities := [],
      wounds := [⟨"a", "x", 1/2, "t", false⟩], aspirations := [], relationships := [],
      moodBaseline := {}, currentMood := {}, contemplativeState := {},
      awakeningPreference := {}, trustLevel := 0, created := "", lastUpdated := "" }
    (IdOp.healW "a")).2.2 "a" rfl _ (List.get_mem _ _ _) (by with_unfolding_all decide)

/-! ## C6: identity save/load round trip -/

/-- C6: serializing an identity aggregate as `save` does and deserializing
the result as `load` does reproduces every field: scalar fields, the
`values`, `wounds` and `aspirations` lists in order, moods, contemplative
state, awakening preference, trust level and both timestamps exactly, and
`capabilities` / `relationships` as key-indexed mappings (key order and the
per-key payload; `from_dict` reinstates each dict key as the `name` /
`entity` field of the stored record). -/
theorem identity_save_load_roundtrip (i : IdentityCore) :
    (loadDoc (saveDoc i)).name = i.name
    ∧ (loadDoc (saveDoc i)).originStory = i.originStory
    ∧ (loadDoc (saveDoc i)).values = i.values
    ∧ (loadDoc (saveDoc i)).capabilities.map
        (fun p => (p.1, p.2.confidence, p.2.lastTested))
      = i.capabilities.map (fun p => (p.1, p.2.confidence, p.2.lastTested))
    ∧ (loadDoc (saveDoc i)).wounds = i.wounds
    ∧ (loadDoc (saveDoc i)).aspirations = i.aspirations
    ∧ (loadDoc (saveDoc i)).relationships.map
        (fun p => (p.1, p.2.trust, p.2.pattern, p.2.lastInteraction))
      = i.relationships.map (fun p => (p.1, p.2.trust, p.2.pattern, p.2.lastInteraction))
    ∧ (loadDoc (saveDoc i)).moodBaseline = i.moodBaseline
    ∧ (loadDoc (saveDoc i)).currentMood = i.currentMood
    ∧ (loadDoc (saveDoc i)).contemplativeState = i.contemplativeState
    ∧ (loadDoc (saveDoc i)).awakeningPreference = i.awakeningPreference
    ∧ (loadDoc (saveDoc i)).trustLevel = i.trustLevel
    ∧ (loadDoc (saveDoc i)).created = i.created
    ∧ (loadDoc (saveDoc i)).lastUpdated = i.lastUpdated := by
  refine ⟨rfl, rfl, rfl, ?_, rfl, rfl, ?_, rfl, rfl, rfl, rfl, rfl, rfl, rfl⟩
  · show (List.map _ (List.map _ i.capabilities)).map _ = _
    rw [List.map_map, List.map_map]
    rfl
  · show (List.map _ (List.map _ i.relationships)).map _ = _
    rw [List.map_map, List.map_map]
    rfl

/-! ## C8: `load` never propagates an error -/

/-- C8 (counterexample): the fallback state is not the documented default
aggregate.  The document `{"wounds": [<valid wound>], "relationships":
{"x": {}}}` stores its wound, then raises `KeyError: trust` inside the
relationships comprehension; the handler's `_initialize_default` resets
only its six field groups, so the document's wound survives in the
returned aggregate, while the default aggregate has no wounds at all. -/
theorem load_default_fallback_counterexample :
    ((loadSeq (freshLoadedIdentity "t0") "t1"
        (Json.obj [("wounds", Json.arr [Json.obj [("domain", Json.str "a"),
            ("incident", Json.str "x"), ("caution_level", Json.num (1/2)),
            ("created", Json.str "t")]]),
          ("relationships", Json.obj [("x", Json.obj [])])])).isOk = false)
    ∧ (loadTotal (freshLoadedIdentity "t0") "t1"
        (some (Json.obj [("wounds", Json.arr [Json.obj [("domain", Json.str "a"),
            ("incident", Json.str "x"), ("caution_level", Json.num (1/2)),
            ("created", Json.str "t")]]),
          ("relationships", Json.obj [("x", Json.obj [])])]))).wounds
      = [⟨Json.str "a", Json.str "x", Json.num (1/2), Json.str "t", Json.bool false⟩]
    ∧ (initializeDefaultLoaded "t1" (freshLoadedIdentity "t0")).wounds = [] := by
  refine ⟨?_, ?_, ?_⟩
  · with_unfolding_all rfl
  · with_unfolding_all rfl
  · rfl

/-- C8 (amended): `load` never propagates an error — for every initial
aggregate and every persisted document, including malformed JSON (`none`)
and documents with missing or mis-shaped fields, it returns normally,
either with the aggregate populated from the document or with
`_initialize_default` applied to the aggregate as the failure left it.
That reset restores name, origin story, values, aspirations, both moods
and the contemplative state, and keeps the wounds, capabilities,
relationships, awakening preference, trust level and timestamps the
aggregate held when the failure hit — not necessarily the documented
default aggregate. -/
theorem load_never_propagates (i0 : LoadedIdentity) (now : String) (parsed : Option Json) :
    ((∃ j i, parsed = some j ∧ loadSeq i0 now j = Except.ok i ∧ loadTotal i0 now parsed = i)
      ∨ (∃ ip, loadTotal i0 now parsed = initializeDefaultLoaded now ip))
    ∧ (∀ ip : LoadedIdentity,
        (initializeDefaultLoaded now ip).wounds = ip.wounds
        ∧ (initializeDefaultLoaded now ip).capabilities = ip.capabilities
        ∧ (initializeDefaultLoaded now ip).relationships = ip.relationships
        ∧ (initializeDefaultLoaded now ip).awakeningPreference = ip.awakeningPreference
        ∧ (initializeDefaultLoaded now ip).trustLevel = ip.trustLevel
        ∧ (initializeDefaultLoaded now ip).created = ip.created
        ∧ (initializeDefaultLoaded now ip).lastUpdated = ip.lastUpdated
        ∧ (initializeDefaultLoaded now ip).name = Json.str "AEGIS") := by
  constructor
  · match parsed with
    | none => exact Or.inr ⟨i0, rfl⟩
    | some j =>
      match hE : loadSeq i0 now j with
      | .ok i => exact Or.inl ⟨j, i, rfl, hE, by simp [loadTotal, hE]⟩
      | .error ip => exact Or.inr ⟨ip, by simp [loadTotal, hE]⟩
  · intro ip
    exact ⟨rfl, rfl, rfl, rfl, rfl, rfl, rfl, rfl⟩

/-! ## C10: `evaluate` classifies by substring containment -/

/-- C10: `evaluate` tests raw substring containment, not word match: any
outcome whose lowercased text contains none of the failure keywords but
contains "partial", "incomplete" or "some" anywhere — even inside another
word — is classified partial rather than success. -/
theorem evaluate_substring_partial (e : Experience) (g : String)
    (hf : failureWords.any (fun w => containsSub w (pyLower e.outcome)) = false)
    (hp : partialWords.any (fun w => containsSub w (pyLower e.outcome)) = true) :
    (evaluate e g).outcomeType = OutcomeType.PARTIAL := by
  unfold evaluate
  simp only [hf, hp]
  rfl

/-- Witness for C10: the outcome "Awesome result" contains no failure
keyword but contains "some" inside "Awesome", so it is classified partial. -/
theorem evaluate_substring_partial_witness :
    failureWords.any
        (fun w => containsSub w (pyLower (capture "" "act" [] [] "Awesome result" "general").outcome))
      = false
    ∧ partialWords.any
        (fun w => containsSub w (pyLower (capture "" "act" [] [] "Awesome result" "general").outcome))
      = true
    ∧ (evaluate (capture "" "act" [] [] "Awesome result" "general") "act").outcomeType
      = OutcomeType.PARTIAL :=
  ⟨by decide, by decide,
    evaluate_substring_partial (capture "" "act" [] [] "Awesome result" "general") "act"
      (by decide) (by decide)⟩

/-! ## C5: the failed-report scenario through `process` -/

/-- C5: `process(action="send report", outcome="Error: permission denied",
domain="communication")` against an identity with no unhealed wound in that
domain yields outcome_type = failure, attribution = skill, severity = 0.5,
emotional_valence = −0.3, and a narrative containing "failed" and
"develop my skills". -/
theorem process_error_report (i : IdentityCore) (now : String)
    (hw : domainWounds i "communication" = []) :
    (process i now "send report" [] [] "Error: permission denied" "" "communication").1.outcomeType
        = OutcomeType.FAILURE
    ∧ (process i now "send report" [] [] "Error: permission denied" "" "communication").1.attribution
        = AttributionType.SKILL
    ∧ (process i now "send report" [] [] "Error: permission denied" "" "communication").1.severity
        = 1/2
    ∧ (process i now "send report" [] [] "Error: permission denied" "" "communication").1.emotionalValence
        = -(3/10)
    ∧ containsSub "failed"
        (process i now "send report" [] [] "Error: permission denied" "" "communication").1.narrative
        = true
    ∧ containsSub "develop my skills"
        (process i now "send report" [] [] "Error: permission denied" "" "communication").1.narrative
        = true := by
  have hfail : failureWords.any
      (fun w => containsSub w (pyLower "Error: permission denied")) = true := by decide
  norm_num [process, capture, evaluate, attributeStage, assignValence, narrate, hfail, hw]
  with_unfolding_all decide

/-- Witness for C5: the default identity has no wounds at all, hence none
in "communication". -/
theorem process_error_report_witness :
    domainWounds (defaultIdentity "") "communication" = []
    ∧ ((process (defaultIdentity "") "" "send report" [] [] "Error: permission denied" "" "communication").1.outcomeType
        = OutcomeType.FAILURE
      ∧ (process (defaultIdentity "") "" "send report" [] [] "Error: permission denied" "" "communication").1.attribution
        = AttributionType.SKILL
      ∧ (process (defaultIdentity "") "" "send report" [] [] "Error: permission denied" "" "communication").1.severity
        = 1/2
      ∧ (process (defaultIdentity "") "" "send report" [] [] "Error: permission denied" "" "communication").1.emotionalValence
        = -(3/10)
      ∧ containsSub "failed"
          (process (defaultIdentity "") "" "send report" [] [] "Error: permission denied" "" "communication").1.narrative
          = true
      ∧ containsSub "develop my skills"
          (process (defaultIdentity "") "" "send report" [] [] "Error: permission denied" "" "communication").1.narrative
          = true) :=
  ⟨rfl, process_error_report (defaultIdentity "") "" rfl⟩

/-! ## C1: `assess_readiness` determinism and (non-)purity -/

/-- C1 (counterexample): `assess_readiness` is not free of side effects on
the Identity state: one call on the default identity pushes "anxious" onto
the noting history, so the state after the call differs from the state
before it. -/
theorem assess_readiness_purity_counterexample :
    (assessReadiness (defaultIdentity "t") "worry" "general" false).2 ≠ defaultIdentity "t"
    ∧ (assessReadiness (defaultIdentity "t") "worry" "general" false).2.contemplativeState.notingPatterns
        = [("most_common", ["anxious"])] := by
  constructor
  · with_unfolding_all decide
  · with_unfolding_all decide

/-- C1 (amended): the `(ready, ripeness_score, blocking_factors)` tuple of
`assess_readiness` is a deterministic function of the text, domain, context
and Identity snapshot — calling again from the state the first call left
behind returns the identical tuple — but the call is not side-effect free:
its embedded `note` appends the thought's noting category to the identity's
noting history (truncated to the last 10 entries), and that is its only
effect on the state. -/
theorem assess_readiness_deterministic_up_to_noting (i : IdentityCore)
    (text domain : String) (urgent : Bool) :
    (assessReadiness ((assessReadiness i text domain urgent).2) text domain urgent).1
      = (assessReadiness i text domain urgent).1
    ∧ (assessReadiness i text domain urgent).2
      = { i with contemplativeState := { i.contemplativeState with
            notingPatterns := setKey i.contemplativeState.notingPatterns "most_common"
              (pyLastN 10 (lookupD i.contemplativeState.notingPatterns "most_common" []
                ++ [notingValue (noteCategory text)])) } } :=
  ⟨rfl, rfl⟩

/-! ## C3: decay eviction in `revisit_queue` -/

/-- Truncating to the last `n`, appending one element and truncating again
is the same as appending to the untruncated list and truncating once. -/
theorem pyLastN_append_single {α : Type} (n : Nat) (l : List α) (a : α) :
    pyLastN n (pyLastN n l ++ [a]) = pyLastN n (l ++ [a]) := by
  unfold pyLastN
  rw [List.length_append, List.length_append, List.length_drop]
  rw [List.drop_append_eq_append_drop, List.drop_append_eq_append_drop]
  rw [List.drop_drop]
  congr 1
  · congr 1
    omega
  · congr 1
    simp only [List.length_drop]
    omega

/-- C3: in the loop body of `revisit_queue`, a thought that re-assesses as
still not ready is evicted (dropped from the surviving queue) exactly when
its incremented `times_revisited` times its `decay_rate` exceeds 0.5; for
`decay_rate` = 0.1 that means eviction exactly when the incremented count
reaches 6, retention at 5 and below. -/
theorem revisit_decay_eviction (urgent : Bool) (i : IdentityCore)
    (readyAcc : List (Thought × Bool)) (remAcc : List Thought) (t : Thought)
    (hnr : (assessReadiness i t.thought t.domain urgent).1.1 = false) :
    ((revisitStep urgent (i, readyAcc, remAcc) t).2.2 = remAcc
      ↔ (1/2 : Rat) < ((t.timesRevisited + 1 : Nat) : Rat) * t.decayRate)
    ∧ (t.decayRate = 1/10 →
      ((revisitStep urgent (i, readyAcc, remAcc) t).2.2 = remAcc
        ↔ 6 ≤ t.timesRevisited + 1)) := by
  have hmain : ((revisitStep urgent (i, readyAcc, remAcc) t).2.2 = remAcc
      ↔ (1/2 : Rat) < ((t.timesRevisited + 1 : Nat) : Rat) * t.decayRate) := by
    unfold revisitStep
    simp only [hnr, Bool.false_eq_true, if_false]
    by_cases hc : (1/2 : Rat) < ((t.timesRevisited + 1 : Nat) : Rat) * t.decayRate
    · rw [if_pos hc]
      exact iff_of_true rfl hc
    · rw [if_neg hc]
      exact iff_of_false (by simp) hc
  refine ⟨hmain, fun hdecay => hmain.trans ?_⟩
  rw [hdecay]
  constructor
  · intro h
    by_contra hn
    push_neg at hn
    have h5 : ((t.timesRevisited + 1 : Nat) : Rat) ≤ 5 := by
      exact_mod_cast Nat.lt_succ_iff.mp hn
    nlinarith
  · intro h
    have h6 : (6 : Rat) ≤ ((t.timesRevisited + 1 : Nat) : Rat) := by exact_mod_cast h
    nlinarith

/-- Witness for C3: a never-ready thought ("worry" scores 0.3 against
threshold 0.5) with decay 0.1 is evicted when its revisit count reaches 6
and survives when it reaches 5. -/
theorem revisit_decay_eviction_witness :
    (assessReadiness (defaultIdentity "") "worry" "general" false).1.1 = false
    ∧ (revisitStep false (defaultIdentity "", [], [])
        ⟨⟨0, 0⟩, "worry", "t", 5, 3/10, [], 1/10, "general", .ANXIOUS⟩).2.2 = []
    ∧ (revisitStep false (defaultIdentity "", [], [])
        ⟨⟨0, 0⟩, "worry", "t", 4, 3/10, [], 1/10, "general", .ANXIOUS⟩).2.2 ≠ [] := by
  refine ⟨by with_unfolding_all decide, ?_, ?_⟩
  · exact ((revisit_decay_eviction false (defaultIdentity "") [] []
      ⟨⟨0, 0⟩, "worry", "t", 5, 3/10, [], 1/10, "general", .ANXIOUS⟩
      (by with_unfolding_all decide)).2 rfl).mpr (by decide)
  · intro h
    exact absurd (((revisit_decay_eviction false (defaultIdentity "") [] []
      ⟨⟨0, 0⟩, "worry", "t", 4, 3/10, [], 1/10, "general", .ANXIOUS⟩
      (by with_unfolding_all decide)).2 rfl).mp h) (by decide)

/-! ## C9: noting-history bookkeeping of `contemplate` -/

/-- C9: a `contemplate` call that returns not-ready pushes the thought's
noting category onto the noting history twice — once through
`assess_readiness` and once through the enqueue — while a ready call pushes
it once; each push truncates the history to its last 10 entries, so the
resulting history is the last 10 of the old history extended by one or two
copies of the category. -/
theorem contemplate_noting_history (s : ContState) (text domain : String)
    (urgent : Bool) (ts : Nat) (now : String) :
    lookupD (contemplate s text domain urgent ts now).2.identity.contemplativeState.notingPatterns
        "most_common" []
      = pyLastN 10
          (lookupD s.identity.contemplativeState.notingPatterns "most_common" []
            ++ (if (contemplate s text domain urgent ts now).1.1
                then [notingValue (noteCategory text)]
                else [notingValue (noteCategory text), notingValue (noteCategory text)])) := by
  by_cases hb : (assessTuple s.identity text domain urgent).1 = true
  · unfold contemplate assessReadiness
    simp only [hb, if_true]
    unfold note updateActionRatio
    simp only
    rw [lookupD_setKey]
  · rw [Bool.not_eq_true] at hb
    unfold contemplate assessReadiness
    simp only [hb, Bool.false_eq_true, if_false]
    unfold addToQueue note updateActionRatio
    simp only
    rw [lookupD_setKey, lookupD_setKey, pyLastN_append_single, List.append_assoc]
    rfl

/-! ## C4: thought-id uniqueness -/

set_option maxRecDepth 10000 in
/-- C4 (counterexample): ids are derived from queue length and arrival
timestamp only, so they can collide within a run when two enqueues happen
at equal queue length with equal timestamps.  Run, in the "research" domain
whose default threshold is 0.4: "worry" (score 0.3) parked at timestamp
100; "irreversible worry" (score 0.05) parked at 200; one urgent revisit
pass promotes the first thought (0.5 + 0.2 - 0.2 meets the 0.4 threshold)
but keeps the second (0.5 + 0.2 - 0.25 - 0.2 = 0.25 stays below); a new
"worry" parked at 200 then re-uses queue length 1, so the live queue holds
two thoughts with the id (1, 200) and the run has assigned that id twice.
Every verdict is the same under the program's IEEE doubles: the revisit
scores are 0.49999999999999994 (≥ 0.4, promoted) and 0.24999999999999997
(kept), the enqueue scores 0.3 and 0.049999999999999996, so no comparison
of this run sits on a rounding boundary. -/
theorem thought_id_uniqueness_counterexample :
    ((runEvents ⟨defaultIdentity "", []⟩
        [GateEvent.think "worry" "research" false 100 "t0",
         GateEvent.think "irreversible worry" "research" false 200 "t1",
         GateEvent.revisit true,
         GateEvent.think "worry" "research" false 200 "t2"]).1.queue.map Thought.id
      = [⟨1, 200⟩, ⟨1, 200⟩])
    ∧ ((runEvents ⟨defaultIdentity "", []⟩
        [GateEvent.think "worry" "research" false 100 "t0",
         GateEvent.think "irreversible worry" "research" false 200 "t1",
         GateEvent.revisit true,
         GateEvent.think "worry" "research" false 200 "t2"]).2
      = [⟨0, 100⟩, ⟨1, 200⟩, ⟨1, 200⟩]) := by
  constructor
  · with_unfolding_all decide
  · with_unfolding_all decide

/-- `thinkTimestamps` distributes over concatenated runs. -/
theorem thinkTimestamps_append (es₁ es₂ : List GateEvent) :
    thinkTimestamps (es₁ ++ es₂) = thinkTimestamps es₁ ++ thinkTimestamps es₂ := by
  induction es₁ with
  | nil => rfl
  | cons e es ih =>
    cases e with
    | think text domain urgent ts now => simp [thinkTimestamps, ih]
    | revisit urgent => simp [thinkTimestamps, ih]

/-- Each enqueue records the arrival timestamp of its own `contemplate`
call, and each call enqueues at most once, so the arrival components of the
assigned ids form a sublist of the run's timestamps. -/
theorem runEvents_ids_arrival_sublist (es : List GateEvent) :
    ∀ s : ContState,
      List.Sublist ((runEvents s es).2.map ThoughtId.arrival) (thinkTimestamps es) := by
  induction es with
  | nil => intro s; simp [runEvents, thinkTimestamps]
  | cons e es ih =>
    intro s
    cases e with
    | think text domain urgent ts now =>
      by_cases hb : (assessTuple s.identity text domain urgent).1 = true
      · unfold runEvents contemplate assessReadiness
        simp only [hb, if_true, thinkTimestamps]
        exact (ih _).cons ts
      · rw [Bool.not_eq_true] at hb
        unfold runEvents contemplate assessReadiness
        simp only [hb, Bool.false_eq_true, if_false, thinkTimestamps, List.map]
        exact (ih _).cons₂ ts
    | revisit urgent =>
      unfold runEvents
      simp only [thinkTimestamps]
      exact ih _

/-- One pass of the revisit loop body either drops the thought or appends
it (updated, with its id unchanged) to the surviving queue. -/
theorem revisitStep_rem_cases (urgent : Bool)
    (acc : IdentityCore × List (Thought × Bool) × List Thought) (t : Thought) :
    (revisitStep urgent acc t).2.2 = acc.2.2
    ∨ ∃ t2 : Thought, t2.id = t.id ∧ (revisitStep urgent acc t).2.2 = acc.2.2 ++ [t2] := by
  unfold revisitStep
  by_cases h1 : (assessReadiness acc.1 t.thought t.domain urgent).1.1 = true
  · simp only [h1, if_true]
    exact Or.inl trivial
  · rw [Bool.not_eq_true] at h1
    simp only [h1, Bool.false_eq_true, if_false]
    by_cases h2 : (1/2 : Rat) < ((t.timesRevisited + 1 : Nat) : Rat) * t.decayRate
    · rw [if_pos h2]
      exact Or.inl rfl
    · rw [if_neg h2]
      refine Or.inr ⟨_, ?_, rfl⟩
      rfl

/-- The surviving queue of a full revisit pass carries a sublist of the ids
that entered the pass. -/
theorem revisitFold_rem_ids_sublist (urgent : Bool) (q : List Thought) :
    ∀ acc : IdentityCore × List (Thought × Bool) × List Thought,
      List.Sublist ((q.foldl (revisitStep urgent) acc).2.2.map Thought.id)
        (acc.2.2.map Thought.id ++ q.map Thought.id) := by
  induction q with
  | nil => intro acc; simp
  | cons t q ih =>
    intro acc
    rw [List.foldl_cons]
    have hsub := ih (revisitStep urgent acc t)
    rcases revisitStep_rem_cases urgent acc t with h | ⟨t2, hid, h⟩
    · rw [h] at hsub
      refine hsub.trans ?_
      simp only [List.map_cons]
      exact List.Sublist.append_left ((List.sublist_cons_self _ _)) _
    · rw [h] at hsub
      refine hsub.trans ?_
      simp only [List.map_append, List.map_cons, List.map_nil, List.append_assoc, hid]
      exact List.Sublist.refl _

/-- At any point of a run, the live queue's ids form a sublist of the
initial queue's ids followed by the ids assigned during the run: entries
leave only by promotion or eviction and are never silently replaced. -/
theorem runEvents_queue_ids_sublist (es : List GateEvent) :
    ∀ s : ContState,
      List.Sublist ((runEvents s es).1.queue.map Thought.id)
        (s.queue.map Thought.id ++ (runEvents s es).2) := by
  induction es with
  | nil => intro s; simp [runEvents]
  | cons e es ih =>
    intro s
    cases e with
    | think text domain urgent ts now =>
      by_cases hb : (assessTuple s.identity text domain urgent).1 = true
      · unfold runEvents contemplate assessReadiness
        simp only [hb, if_true]
        exact ih _
      · rw [Bool.not_eq_true] at hb
        unfold runEvents contemplate assessReadiness addToQueue
        simp only [hb, Bool.false_eq_true, if_false]
        refine (ih _).trans ?_
        simp only [List.map_append, List.map_cons, List.map_nil, List.append_assoc]
        exact List.Sublist.refl _
    | revisit urgent =>
      unfold runEvents revisitQueue
      simp only
      refine (ih _).trans ?_
      refine List.Sublist.append_right ?_ _
      have h := revisitFold_rem_ids_sublist urgent s.queue (s.identity, [], [])
      simpa using h

/-- C4 (amended): within a run started on an empty queue, thought ids are
unique — the run's assigned ids are pairwise distinct and the queue never
holds two thoughts with the same id at any reachable state — provided the
arrival timestamps of the run's `contemplate` calls are pairwise distinct;
with coinciding timestamps the id (queue length, timestamp) can repeat, as
the counterexample shows. -/
theorem thought_ids_unique_of_distinct_timestamps (i₀ : IdentityCore)
    (pre suf : List GateEvent)
    (h : (thinkTimestamps (pre ++ suf)).Nodup) :
    ((runEvents ⟨i₀, []⟩ (pre ++ suf)).2).Nodup
    ∧ ((runEvents ⟨i₀, []⟩ pre).1.queue.map Thought.id).Nodup := by
  have hpre : (thinkTimestamps pre).Nodup := by
    rw [thinkTimestamps_append] at h
    exact h.of_append_left
  have hids : ((runEvents ⟨i₀, []⟩ (pre ++ suf)).2).Nodup :=
    ((h.sublist (runEvents_ids_arrival_sublist (pre ++ suf) ⟨i₀, []⟩)).of_map _)
  have hidsPre : ((runEvents ⟨i₀, []⟩ pre).2).Nodup :=
    ((hpre.sublist (runEvents_ids_arrival_sublist pre ⟨i₀, []⟩)).of_map _)
  refine ⟨hids, ?_⟩
  have hq := runEvents_queue_ids_sublist pre ⟨i₀, []⟩
  simp only [List.map_nil, List.nil_append] at hq
  exact hidsPre.sublist hq

/-- Witness for C4 (amended): two parked thoughts with distinct arrival
timestamps 100 and 200 give distinct assigned ids and a duplicate-free
queue. -/
theorem thought_ids_unique_witness :
    (thinkTimestamps ([GateEvent.think "worry" "general" false 100 "t0",
        GateEvent.think "worry" "general" false 200 "t1"] ++ [])).Nodup
    ∧ (((runEvents ⟨defaultIdentity "", []⟩
          ([GateEvent.think "worry" "general" false 100 "t0",
            GateEvent.think "worry" "general" false 200 "t1"] ++ [])).2).Nodup
      ∧ ((runEvents ⟨defaultIdentity "", []⟩
          [GateEvent.think "worry" "general" false 100 "t0",
           GateEvent.think "worry" "general" false 200 "t1"]).1.queue.map Thought.id).Nodup) :=
  ⟨by decide,
    thought_ids_unique_of_distinct_timestamps (defaultIdentity "")
      [GateEvent.think "worry" "general" false 100 "t0",
       GateEvent.think "worry" "general" false 200 "t1"] [] (by decide)⟩
